import Mathlib

/-!
Shallow embedding of `src/src/gutenberg_scrape/main.py` (gutenberg-scrape).

The program sequentially downloads EPUB files by integer ID, skipping IDs
whose artifact already exists, retrying transient network failures a bounded
number of times, and persisting a checkpoint (`progress.json`) after each ID.

Modelling decisions (each definition is translated from the source):
* The network is an environment `net : Nat → AttemptResult` giving, for each
  HTTP call index within one ID (0-based), either a response or an exception
  (`requests.get` at main.py line 55).
* The content-store write (`open(out_path, "wb"); f.write(...)`, lines 58-59)
  either succeeds or raises; a raised write error is NOT caught by the
  `except requests.exceptions.*` clauses, so it propagates.  We model the
  write success as a boolean `writeOk`; a propagating exception is the
  return value `none`.
* Observable side effects (HTTP calls, sleeps, artifact writes, checkpoint
  writes, existence checks) are recorded as an event list, in program order.
* `progress.json` is modelled by its `last_id` value: `Option Nat`, `none`
  when the file is absent (`load_progress`, lines 31-35).
-/

/-- Constant `MAX_ID = 10000` (main.py line 9). -/
def MAX_ID : Nat := 10000

/-- Constant `MAX_RETRIES = 3` (main.py line 15). -/
def MAX_RETRIES : Nat := 3

/-- Constant `RETRY_DELAY = 3` seconds (main.py line 16). -/
def RETRY_DELAY : Nat := 3

/-- The expected media type: `"application/epub+zip"` (main.py line 56). -/
def EPUB_MIME : String := "application/epub+zip"

/-- An HTTP response as far as the program inspects it: `status_code`,
the `Content-Type` header (absent ⇒ `none`), and the body bytes. -/
structure Response where
  status : Nat
  contentType : Option String
  body : List Nat
deriving Repr, DecidableEq

/-- The two exception classes caught around `requests.get`
(main.py lines 65 and 69): `Timeout` and any other `RequestException`. -/
inductive NetExc where
  | timeout
  | requestError
deriving Repr, DecidableEq

/-- Result of one `requests.get` call: a response, or a raised exception. -/
abbrev AttemptResult := Except NetExc Response

/-- Does list `needle` occur as a contiguous block at the front of the
second list?  (Helper for Python substring containment `in`.) -/
def occursAtFront : List Char → List Char → Bool
  | [], _ => true
  | _ :: _, [] => false
  | a :: as, b :: bs => a == b && occursAtFront as bs

/-- Python substring containment: `occursIn needle hay` is `needle in hay`. -/
def occursIn (needle : List Char) : List Char → Bool
  | [] => needle.isEmpty
  | c :: rest => occursAtFront needle (c :: rest) || occursIn needle rest

/-- The success condition of main.py line 56:
`response.status_code == 200 and "application/epub+zip" in
response.headers.get("Content-Type", "")`. -/
def successCond (r : Response) : Bool :=
  r.status == 200 && occursIn EPUB_MIME.toList (r.contentType.getD ("")).toList

/-- Observable events of a run, in program order. -/
inductive Ev where
  /-- Existence check `file_exists(book_id)` (main.py line 86). -/
  | check (id : Nat)
  /-- The skip log for an existing artifact (main.py line 87). -/
  | skip (id : Nat)
  /-- One `requests.get` call for `id`; `attempt` is the value of the
  `attempts` counter when the call is issued (main.py line 55). -/
  | netCall (id : Nat) (attempt : Nat)
  /-- Retry delay `sleep(RETRY_DELAY)` inside an exception handler (lines 68, 72). -/
  | retrySleep (id : Nat)
  /-- Pacing delay `sleep(1)` after a fetch (main.py line 90). -/
  | paceSleep (id : Nat)
  /-- Writing the artifact file for `id` (main.py lines 58-59). -/
  | saveArtifact (id : Nat)
  /-- Call to `save_progress` writing checkpoint value `v` (main.py lines 92-93). -/
  | saveCkpt (v : Nat)
deriving Repr, DecidableEq

/-- The terminal classification of one `try_download` call, i.e. which exit
path of the function is taken.  The code distinguishes these paths by their
log records (lines 60, 63, 74) and, for `storeError`, by the exception that
propagates from the uncaught file write. -/
inductive Terminal where
  | saved
  | notFound
  | failed
  | storeError
deriving Repr, DecidableEq

/-- Result of one `try_download` call: its event trace, the exit path taken,
and the Python return value (`none` when an exception propagates). -/
structure FetchResult where
  events : List Ev
  terminal : Terminal
  ret : Option Bool
deriving Repr, DecidableEq

/-- The `while attempts < MAX_RETRIES` loop of `try_download`
(main.py lines 53-72), translated with `fuel = MAX_RETRIES - attempts`:

* response arrives and line 56's condition holds: write the artifact
  (propagating exception if the write fails, modelled by `writeOk = false`),
  log, `return True`;
* response arrives, condition fails: log, `return False` (no retry);
* exception (`Timeout` or `RequestException`): `attempts += 1`, log,
  `sleep(RETRY_DELAY)`, loop again.

When the loop exits (`attempts = MAX_RETRIES`) line 75 returns `False`. -/
def tryDownloadGo (net : Nat → AttemptResult) (writeOk : Bool) (id : Nat) :
    Nat → Nat → FetchResult
  | 0, _ => { events := [], terminal := .failed, ret := some false }
  | fuel + 1, attempts =>
    match net attempts with
    | .ok r =>
      if successCond r then
        if writeOk then
          { events := [.netCall id attempts, .saveArtifact id],
            terminal := .saved, ret := some true }
        else
          { events := [.netCall id attempts],
            terminal := .storeError, ret := none }
      else
        { events := [.netCall id attempts],
          terminal := .notFound, ret := some false }
    | .error _ =>
      let t := tryDownloadGo net writeOk id fuel (attempts + 1)
      { events := .netCall id attempts :: .retrySleep id :: t.events,
        terminal := t.terminal, ret := t.ret }

/-- Function `try_download(book_id)` (main.py lines 48-75): `attempts` starts
at 0, the loop runs while `attempts < MAX_RETRIES`. -/
def try_download (net : Nat → AttemptResult) (writeOk : Bool) (id : Nat) :
    FetchResult :=
  tryDownloadGo net writeOk id MAX_RETRIES 0

/-- The external world a run interacts with: checkpoint-store content
(`last_id` of `progress.json`, `none` if absent), content-store state
(`existing`), the network (`net`, per ID and per call index), and whether
the artifact write for an ID succeeds (`writeOk`). -/
structure World where
  progressFile : Option Nat
  existing : Nat → Bool
  net : Nat → Nat → AttemptResult
  writeOk : Nat → Bool

/-- Function `load_progress()` (main.py lines 31-35), projected to the
`last_id` value: returns the stored value, or 0 when `progress.json` is
absent. -/
def load_progress (file : Option Nat) : Nat := file.getD 0

/-- Function `file_exists(book_id)` (main.py lines 45-46). -/
def file_exists (w : World) (id : Nat) : Bool := w.existing id

/-- The body of the `for book_id in range(start_id, MAX_ID + 1)` loop
(main.py lines 85-93), over an explicit ID list.  Returns the event trace,
the final checkpoint-store content, and whether the run aborted on a
propagating store-write exception.

Per ID: existence check; if present only a log, else `try_download` then
`sleep(1)`; then `progress["last_id"] = book_id; save_progress(progress)`.
A store-write exception inside `try_download` is uncaught in `main`, so the
checkpoint write for that ID never happens and the run stops. -/
def mainLoop (w : World) : List Nat → Option Nat → List Ev × Option Nat × Bool
  | [], ck => ([], ck, false)
  | id :: rest, ck =>
    if file_exists w id then
      let r := mainLoop w rest (some id)
      (.check id :: .skip id :: .saveCkpt id :: r.1, r.2)
    else
      let fr := try_download (w.net id) (w.writeOk id) id
      match fr.ret with
      | none => (.check id :: fr.events, ck, true)
      | some _ =>
        let r := mainLoop w rest (some id)
        (.check id :: fr.events ++ .paceSleep id :: .saveCkpt id :: r.1, r.2)

/-- Value `start_id = progress.get("last_id", 0) + 1` (main.py line 81). -/
def startId (w : World) : Nat := load_progress w.progressFile + 1

/-- The ID list of `range(start_id, MAX_ID + 1)` (main.py line 85). -/
def visitedIds (w : World) : List Nat :=
  List.range' (startId w) (MAX_ID + 1 - startId w)

/-- Function `main()` (main.py lines 78-95; named `mainRun` because `main` is
reserved in Lean): load progress, iterate over `range(start_id, MAX_ID + 1)`. -/
def mainRun (w : World) : List Ev × Option Nat × Bool :=
  mainLoop w (visitedIds w) w.progressFile

/-- The checkpoint values written during a trace, in order. -/
def ckptWrites : List Ev → List Nat
  | [] => []
  | .saveCkpt v :: rest => v :: ckptWrites rest
  | _ :: rest => ckptWrites rest

/-- The IDs existence-checked during a trace, in order.  Every ID the main
loop visits is checked first, so this is the visit order. -/
def checkedIds : List Ev → List Nat
  | [] => []
  | .check id :: rest => id :: checkedIds rest
  | _ :: rest => checkedIds rest

/-- Number of HTTP calls in a trace. -/
def numNetCalls : List Ev → Nat
  | [] => 0
  | .netCall _ _ :: rest => numNetCalls rest + 1
  | _ :: rest => numNetCalls rest

/-- Number of retry delays in a trace. -/
def numRetrySleeps : List Ev → Nat
  | [] => 0
  | .retrySleep _ :: rest => numRetrySleeps rest + 1
  | _ :: rest => numRetrySleeps rest

/-- Does the event touch the network or wait, attributed to `id`? -/
def evTouchesNetOrWaits (id : Nat) : Ev → Bool
  | .netCall j _ => j == id
  | .retrySleep j => j == id
  | .paceSleep j => j == id
  | _ => false

/-- The ID an event belongs to (for a checkpoint write, the value written,
which the code sets to the current ID). -/
def evId : Ev → Nat
  | .check id => id
  | .skip id => id
  | .netCall id _ => id
  | .retrySleep id => id
  | .paceSleep id => id
  | .saveArtifact id => id
  | .saveCkpt v => v

/-- The complete event block the main loop emits for one ID whose processing
concludes (skip path or fetch path, in source order, ending with that ID's
checkpoint write). -/
def idBlock (w : World) (id : Nat) : List Ev :=
  if file_exists w id then
    [.check id, .skip id, .saveCkpt id]
  else
    .check id ::
      (try_download (w.net id) (w.writeOk id) id).events ++
        [.paceSleep id, .saveCkpt id]

/-- The Python return value of `try_download` as a function of the exit path:
`True` only for a saved artifact, `False` for both a definitive miss and an
exhausted retry budget, no value (propagating exception) for a store error. -/
def retOf : Terminal → Option Bool
  | .saved => some true
  | .notFound => some false
  | .failed => some false
  | .storeError => none

/-- The checkpoint-store content after a sequence of per-ID checkpoint
writes for the IDs of `l` (in order), starting from content `ck`: the last
written ID, or `ck` when no write happened. -/
def lastCk (l : List Nat) (ck : Option Nat) : Option Nat :=
  match l.getLast? with
  | none => ck
  | some i => some i

/-- Processing of an ID concludes (reaches the checkpoint write at main.py
lines 92-93) iff the artifact already exists or `try_download` returns
rather than raising a store-write exception. -/
def concludes (w : World) (id : Nat) : Prop :=
  file_exists w id = true ∨ (try_download (w.net id) (w.writeOk id) id).ret ≠ none

/-! ## Lemmas about substring containment and the fetch loop -/

theorem occursAtFront_iff (n : List Char) : ∀ h : List Char,
    occursAtFront n h = true ↔ ∃ t, h = n ++ t := by
  induction n with
  | nil => intro h; simp [occursAtFront]
  | cons a as ih =>
    intro h
    cases h with
    | nil => simp [occursAtFront]
    | cons b bs =>
      simp only [occursAtFront, Bool.and_eq_true, beq_iff_eq, ih, List.cons_append,
        List.cons.injEq]
      constructor
      · rintro ⟨rfl, t, rfl⟩
        exact ⟨t, rfl, rfl⟩
      · rintro ⟨t, rfl, rfl⟩
        exact ⟨rfl, t, rfl⟩

theorem occursIn_iff (n : List Char) : ∀ h : List Char,
    occursIn n h = true ↔ ∃ s t, h = s ++ n ++ t := by
  intro h
  induction h with
  | nil =>
    cases n with
    | nil => simp [occursIn]
    | cons a as => simp [occursIn]
  | cons c rest ih =>
    simp only [occursIn, Bool.or_eq_true, occursAtFront_iff, ih]
    constructor
    · rintro (⟨t, ht⟩ | ⟨s, t, ht⟩)
      · exact ⟨[], t, by simpa using ht⟩
      · exact ⟨c :: s, t, by simp [ht]⟩
    · rintro ⟨s, t, hst⟩
      cases s with
      | nil =>
        exact Or.inl ⟨t, by simpa using hst⟩
      | cons x xs =>
        simp only [List.cons_append, List.cons.injEq] at hst
        obtain ⟨rfl, hr⟩ := hst
        exact Or.inr ⟨xs, t, hr⟩

theorem tryDownloadGo_ret (net : Nat → AttemptResult) (wo : Bool) (id : Nat) :
    ∀ fuel a, (tryDownloadGo net wo id fuel a).ret =
      retOf (tryDownloadGo net wo id fuel a).terminal := by
  intro fuel
  induction fuel with
  | zero => intro a; rfl
  | succ m ih =>
    intro a
    simp only [tryDownloadGo]
    cases hna : net a with
    | ok r =>
      by_cases hs : successCond r <;> cases wo <;> simp [hs, retOf]
    | error e =>
      simpa using ih (a + 1)

/-! ## Claim theorems about the fetcher -/

/-- C2: for any ID whose every fetch attempt raises a timeout or other
network error, `try_download` performs exactly `MAX_RETRIES = 3` attempts
and then takes the `Failed` exit (returning `False`); both exception kinds
draw on the same attempt budget (the hypothesis allows any mix). -/
theorem c2_retry_exhaustion (net : Nat → AttemptResult) (wo : Bool) (id : Nat)
    (h : ∀ a, ∃ e, net a = Except.error e) :
    (try_download net wo id).terminal = Terminal.failed ∧
    numNetCalls (try_download net wo id).events = MAX_RETRIES ∧
    (try_download net wo id).ret = some false := by
  obtain ⟨e0, h0⟩ := h 0
  obtain ⟨e1, h1⟩ := h 1
  obtain ⟨e2, h2⟩ := h 2
  simp [try_download, MAX_RETRIES, tryDownloadGo, h0, h1, h2, numNetCalls]

/-- Witness for C2 at a concrete environment mixing a timeout and
non-timeout network errors across the three attempts. -/
theorem c2_retry_exhaustion_witness :
    (try_download
        (fun a => Except.error (if a == 0 then NetExc.timeout else NetExc.requestError))
        true 1).terminal = Terminal.failed ∧
    numNetCalls (try_download
        (fun a => Except.error (if a == 0 then NetExc.timeout else NetExc.requestError))
        true 1).events = MAX_RETRIES ∧
    (try_download
        (fun a => Except.error (if a == 0 then NetExc.timeout else NetExc.requestError))
        true 1).ret = some false :=
  c2_retry_exhaustion
    (fun a => Except.error (if a == 0 then NetExc.timeout else NetExc.requestError))
    true 1
    (fun a => ⟨if a == 0 then NetExc.timeout else NetExc.requestError, rfl⟩)

/-- C3: for any ID where the first HTTP call completes with a response not
meeting the success condition, `try_download` performs exactly one attempt,
takes the `NotFound` exit, and performs no retry and no retry delay. -/
theorem c3_no_retry_on_miss (net : Nat → AttemptResult) (wo : Bool) (id : Nat)
    (r : Response) (h0 : net 0 = Except.ok r) (h1 : successCond r = false) :
    (try_download net wo id).terminal = Terminal.notFound ∧
    numNetCalls (try_download net wo id).events = 1 ∧
    numRetrySleeps (try_download net wo id).events = 0 ∧
    (try_download net wo id).ret = some false := by
  simp [try_download, MAX_RETRIES, tryDownloadGo, h0, h1, numNetCalls, numRetrySleeps]

/-- Witness for C3 at a concrete 404 response. -/
theorem c3_no_retry_on_miss_witness :
    (try_download (fun _ => Except.ok ⟨404, some ("text/html"), []⟩) true 7).terminal =
        Terminal.notFound ∧
    numNetCalls (try_download (fun _ => Except.ok ⟨404, some ("text/html"), []⟩) true 7).events = 1 ∧
    numRetrySleeps (try_download (fun _ => Except.ok ⟨404, some ("text/html"), []⟩) true 7).events
        = 0 ∧
    (try_download (fun _ => Except.ok ⟨404, some ("text/html"), []⟩) true 7).ret = some false :=
  c3_no_retry_on_miss (fun _ => Except.ok ⟨404, some ("text/html"), []⟩) true 7
    ⟨404, some ("text/html"), []⟩ rfl (by decide)

/-- C7 counterexample: two concrete fetches with different terminal
classifications (`NotFound` after a 404 response, `Failed` after three
timeouts) produce the same returned value, so the result of `try_download`
does not distinguish all three terminal classifications from one another. -/
theorem c7_counterexample :
    (try_download (fun _ => Except.ok ⟨404, none, []⟩) true 1).terminal =
        Terminal.notFound ∧
    (try_download (fun _ => Except.error NetExc.timeout) true 1).terminal =
        Terminal.failed ∧
    (try_download (fun _ => Except.ok ⟨404, none, []⟩) true 1).ret =
      (try_download (fun _ => Except.error NetExc.timeout) true 1).ret := by
  decide

/-- C7 amended: `try_download` returns a boolean, not a tri-state value:
`True` exactly when the outcome is `Saved`, `False` for both `NotFound` and
`Failed` (which are distinguished only by logging / control flow), and no
value at all (a propagating exception) on a store-write error. -/
theorem c7_amended_boolean_result (net : Nat → AttemptResult) (wo : Bool) (id : Nat) :
    (try_download net wo id).ret = retOf (try_download net wo id).terminal :=
  tryDownloadGo_ret net wo id MAX_RETRIES 0

/-- C8 counterexample: with every attempt timing out, the fetch's event
sequence ends with a retry delay — `sleep(RETRY_DELAY)` runs after the
third (final) failed attempt, when no attempts remain. -/
theorem c8_counterexample :
    (try_download (fun _ => Except.error NetExc.timeout) true 1).events =
      [.netCall 1 0, .retrySleep 1, .netCall 1 1, .retrySleep 1,
       .netCall 1 2, .retrySleep 1] ∧
    (try_download (fun _ => Except.error NetExc.timeout) true 1).events.getLast? =
      some (Ev.retrySleep 1) := by
  decide

/-- C8 amended: the fixed retry delay is waited after every failed attempt,
including the final one: when all attempts raise network errors, each of
the three attempts is followed by a retry delay, so the attempt sequence
ends with a retry wait once the budget is exhausted. -/
theorem c8_amended_delay_after_final (net : Nat → AttemptResult) (wo : Bool) (id : Nat)
    (h : ∀ a, ∃ e, net a = Except.error e) :
    (try_download net wo id).events =
      [.netCall id 0, .retrySleep id, .netCall id 1, .retrySleep id,
       .netCall id 2, .retrySleep id] := by
  obtain ⟨e0, h0⟩ := h 0
  obtain ⟨e1, h1⟩ := h 1
  obtain ⟨e2, h2⟩ := h 2
  simp [try_download, MAX_RETRIES, tryDownloadGo, h0, h1, h2]

/-- Witness for the amended C8 at a concrete all-timeout environment. -/
theorem c8_amended_delay_after_final_witness :
    (try_download (fun _ => Except.error NetExc.timeout) true 2).events =
      [.netCall 2 0, .retrySleep 2, .netCall 2 1, .retrySleep 2,
       .netCall 2 2, .retrySleep 2] :=
  c8_amended_delay_after_final (fun _ => Except.error NetExc.timeout) true 2
    (fun _ => ⟨NetExc.timeout, rfl⟩)

/-- C10: the success classification is a total function of the response:
it holds iff the status is 200 and the expected media type occurs as a
substring of the `Content-Type` header value; an absent header is treated
exactly like an empty-string header; and a status-200 response with no
`Content-Type` header is classified `NotFound` after a single attempt,
not an error. -/
theorem c10_content_type_totality :
    (∀ r : Response, successCond r = true ↔
      (r.status = 200 ∧
        ∃ s t, (r.contentType.getD ("")).toList = s ++ EPUB_MIME.toList ++ t)) ∧
    (∀ st b, successCond ⟨st, none, b⟩ = successCond ⟨st, some (""), b⟩) ∧
    (∀ b wo id,
      (try_download (fun _ => Except.ok ⟨200, none, b⟩) wo id).terminal =
          Terminal.notFound ∧
      numNetCalls (try_download (fun _ => Except.ok ⟨200, none, b⟩) wo id).events = 1) := by
  refine ⟨fun r => ?_, fun st b => rfl, fun b wo id => ?_⟩
  · simp [successCond, Bool.and_eq_true, beq_iff_eq, occursIn_iff]
  · have hsc : successCond ⟨200, none, b⟩ = false := rfl
    simp [try_download, MAX_RETRIES, tryDownloadGo, hsc, numNetCalls]

/-! ## Lemmas about event traces of the main loop -/

theorem ckptWrites_append (a : List Ev) : ∀ b : List Ev,
    ckptWrites (a ++ b) = ckptWrites a ++ ckptWrites b := by
  induction a with
  | nil => intro b; rfl
  | cons e rest ih => intro b; cases e <;> simp [ckptWrites, ih]

theorem checkedIds_append (a : List Ev) : ∀ b : List Ev,
    checkedIds (a ++ b) = checkedIds a ++ checkedIds b := by
  induction a with
  | nil => intro b; rfl
  | cons e rest ih => intro b; cases e <;> simp [checkedIds, ih]

theorem tryDownloadGo_no_ckpt (net : Nat → AttemptResult) (wo : Bool) (id : Nat) :
    ∀ fuel a, ckptWrites (tryDownloadGo net wo id fuel a).events = [] := by
  intro fuel
  induction fuel with
  | zero => intro a; rfl
  | succ m ih =>
    intro a
    simp only [tryDownloadGo]
    cases hna : net a with
    | ok r => by_cases hs : successCond r <;> cases wo <;> simp [hs, ckptWrites]
    | error e => simpa [ckptWrites] using ih (a + 1)

theorem tryDownloadGo_no_check (net : Nat → AttemptResult) (wo : Bool) (id : Nat) :
    ∀ fuel a, checkedIds (tryDownloadGo net wo id fuel a).events = [] := by
  intro fuel
  induction fuel with
  | zero => intro a; rfl
  | succ m ih =>
    intro a
    simp only [tryDownloadGo]
    cases hna : net a with
    | ok r => by_cases hs : successCond r <;> cases wo <;> simp [hs, checkedIds]
    | error e => simpa [checkedIds] using ih (a + 1)

theorem tryDownloadGo_evId (net : Nat → AttemptResult) (wo : Bool) (id : Nat) :
    ∀ fuel a e, e ∈ (tryDownloadGo net wo id fuel a).events → evId e = id := by
  intro fuel
  induction fuel with
  | zero => intro a e he; simp [tryDownloadGo] at he
  | succ m ih =>
    intro a e he
    simp only [tryDownloadGo] at he
    cases hna : net a with
    | ok r =>
      rw [hna] at he
      by_cases hs : successCond r <;> cases wo <;> simp [hs] at he <;>
        rcases he with rfl | rfl <;> rfl
    | error ex =>
      rw [hna] at he
      simp at he
      rcases he with rfl | rfl | he
      · rfl
      · rfl
      · exact ih (a + 1) e he

theorem try_download_no_ckpt (net : Nat → AttemptResult) (wo : Bool) (id : Nat) :
    ckptWrites (try_download net wo id).events = [] :=
  tryDownloadGo_no_ckpt net wo id MAX_RETRIES 0

theorem try_download_no_check (net : Nat → AttemptResult) (wo : Bool) (id : Nat) :
    checkedIds (try_download net wo id).events = [] :=
  tryDownloadGo_no_check net wo id MAX_RETRIES 0

theorem try_download_evId (net : Nat → AttemptResult) (wo : Bool) (id : Nat) :
    ∀ e ∈ (try_download net wo id).events, evId e = id :=
  tryDownloadGo_evId net wo id MAX_RETRIES 0

theorem ckptWrites_idBlock (w : World) (i : Nat) : ckptWrites (idBlock w i) = [i] := by
  unfold idBlock
  by_cases hx : file_exists w i
  · simp [hx, ckptWrites]
  · simp only [hx, if_false, Bool.false_eq_true]
    simp [ckptWrites, ckptWrites_append, try_download_no_ckpt]

theorem evId_idBlock (w : World) (i : Nat) : ∀ e ∈ idBlock w i, evId e = i := by
  intro e he
  unfold idBlock at he
  by_cases hx : file_exists w i
  · simp [hx] at he
    rcases he with rfl | rfl | rfl <;> rfl
  · simp [hx] at he
    rcases he with rfl | he | rfl | rfl
    · rfl
    · exact try_download_evId (w.net i) (w.writeOk i) i e he
    · rfl
    · rfl

theorem ckptWrites_flatMap_blocks (w : World) : ∀ l : List Nat,
    ckptWrites (l.flatMap (idBlock w)) = l := by
  intro l
  induction l with
  | nil => rfl
  | cons i rest ih => simp [ckptWrites_append, ckptWrites_idBlock, ih]

theorem mainLoop_blocks (w : World) : ∀ ids ck, ∃ k tail,
    k ≤ ids.length ∧
    ckptWrites (mainLoop w ids ck).1 = ids.take k ∧
    (mainLoop w ids ck).1 = (ids.take k).flatMap (idBlock w) ++ tail ∧
    ckptWrites tail = [] := by
  intro ids
  induction ids with
  | nil =>
    intro ck
    exact ⟨0, [], Nat.le_refl 0, rfl, rfl, rfl⟩
  | cons id rest ih =>
    intro ck
    by_cases hx : file_exists w id
    · obtain ⟨k, tail, hk, h1, h2, h3⟩ := ih (some id)
      refine ⟨k + 1, tail, Nat.succ_le_succ hk, ?_, ?_, h3⟩
      · simp [mainLoop, hx, ckptWrites, h1]
      · simp [mainLoop, hx, idBlock, h2]
    · cases hr : (try_download (w.net id) (w.writeOk id) id).ret with
      | none =>
        refine ⟨0, (mainLoop w (id :: rest) ck).1, Nat.zero_le _, ?_, by simp, ?_⟩
        · simp [mainLoop, hx, hr, ckptWrites, try_download_no_ckpt]
        · simp [mainLoop, hx, hr, ckptWrites, try_download_no_ckpt]
      | some b =>
        obtain ⟨k, tail, hk, h1, h2, h3⟩ := ih (some id)
        refine ⟨k + 1, tail, Nat.succ_le_succ hk, ?_, ?_, h3⟩
        · simp [mainLoop, hx, hr, ckptWrites, ckptWrites_append, try_download_no_ckpt, h1]
        · simp [mainLoop, hx, hr, idBlock, h2]

theorem mainLoop_checked (w : World) : ∀ ids ck, (mainLoop w ids ck).2.2 = false →
    checkedIds (mainLoop w ids ck).1 = ids := by
  intro ids
  induction ids with
  | nil => intro ck h; rfl
  | cons id rest ih =>
    intro ck h
    by_cases hx : file_exists w id
    · have h2 : (mainLoop w rest (some id)).2.2 = false := by
        simpa [mainLoop, hx] using h
      simp [mainLoop, hx, checkedIds, ih (some id) h2]
    · cases hr : (try_download (w.net id) (w.writeOk id) id).ret with
      | none =>
        exfalso
        simp [mainLoop, hx, hr] at h
      | some b =>
        have h2 : (mainLoop w rest (some id)).2.2 = false := by
          simpa [mainLoop, hx, hr] using h
        simp [mainLoop, hx, hr, checkedIds, checkedIds_append, try_download_no_check,
          ih (some id) h2]

theorem evTouches_eq_false (id : Nat) (e : Ev) (h : evId e ≠ id) :
    evTouchesNetOrWaits id e = false := by
  cases e <;> simp_all [evTouchesNetOrWaits, evId]

theorem mainLoop_no_touch (w : World) (id : Nat) (hx : file_exists w id = true) :
    ∀ ids ck e, e ∈ (mainLoop w ids ck).1 → evTouchesNetOrWaits id e = false := by
  intro ids
  induction ids with
  | nil => intro ck e he; simp [mainLoop] at he
  | cons j rest ih =>
    intro ck e he
    by_cases hj : file_exists w j
    · simp [mainLoop, hj] at he
      rcases he with rfl | rfl | rfl | he
      · rfl
      · rfl
      · rfl
      · exact ih (some j) e he
    · have hji : evId e ≠ id → evTouchesNetOrWaits id e = false := evTouches_eq_false id e
      have hne : j ≠ id := by
        intro hEq
        rw [hEq] at hj
        exact hj hx
      cases hr : (try_download (w.net j) (w.writeOk j) j).ret with
      | none =>
        simp [mainLoop, hj, hr] at he
        rcases he with rfl | he
        · rfl
        · exact hji (by rw [try_download_evId (w.net j) (w.writeOk j) j e he]; exact hne)
      | some b =>
        simp [mainLoop, hj, hr] at he
        rcases he with rfl | he | rfl | rfl | he
        · rfl
        · exact hji (by rw [try_download_evId (w.net j) (w.writeOk j) j e he]; exact hne)
        · exact hji (by simpa [evId] using hne)
        · exact hji (by simpa [evId] using hne)
        · exact ih (some j) e he

theorem lastCk_cons (i : Nat) (l : List Nat) (ck : Option Nat) :
    lastCk (i :: l) ck = lastCk l (some i) := by
  cases l with
  | nil => rfl
  | cons j l2 =>
    cases hgl : (j :: l2).getLast? with
    | none => simp at hgl
    | some x => simp [lastCk, hgl]

theorem lastCk_range' (s n : Nat) (ck : Option Nat) (h : ¬ (n = 0)) :
    lastCk (List.range' s n) ck = some (s + n - 1) := by
  unfold lastCk
  rw [List.getLast?_range', if_neg h]

theorem mainLoop_abort (w : World) (N : Nat) (l2 : List Nat)
    (hN : file_exists w N = false)
    (hret : (try_download (w.net N) (w.writeOk N) N).ret = none) :
    ∀ l1 ck, (∀ id, id ∈ l1 → concludes w id) →
      mainLoop w (l1 ++ N :: l2) ck =
        (l1.flatMap (idBlock w) ++
          Ev.check N :: (try_download (w.net N) (w.writeOk N) N).events,
         lastCk l1 ck, true) := by
  intro l1
  induction l1 with
  | nil =>
    intro ck hc
    simp [mainLoop, hN, hret, lastCk]
  | cons i l1 ih =>
    intro ck hc
    have hrec := ih (some i) (fun id hid => hc id (List.mem_cons_of_mem i hid))
    by_cases hx : file_exists w i
    · simp [mainLoop, hx, hrec, idBlock, lastCk_cons]
    · have hci := hc i (List.mem_cons_self i l1)
      have hsome : (try_download (w.net i) (w.writeOk i) i).ret ≠ none := by
        rcases hci with hcx | hcr
        · exact absurd hcx (by simpa using hx)
        · exact hcr
      cases hr : (try_download (w.net i) (w.writeOk i) i).ret with
      | none => exact absurd hr hsome
      | some b =>
        simp [mainLoop, hx, hr, hrec, idBlock, lastCk_cons]

/-! ## Claim theorems about the controller -/

/-- C1: in every run the sequence of checkpoint writes is strictly
increasing (hence monotonically non-decreasing), and the trace decomposes
into complete per-ID blocks — each ending with that ID's checkpoint write,
persisted before the next ID's block begins — followed by a tail containing
no checkpoint write; the written values are exactly the first `k` visited
IDs, the fully processed ones, so the checkpoint never exceeds the highest
fully processed ID. -/
theorem c1_checkpoint_discipline (w : World) :
    List.Pairwise (· < ·) (ckptWrites (mainRun w).1) ∧
    ∃ k tail,
      ckptWrites (mainRun w).1 = (visitedIds w).take k ∧
      (mainRun w).1 = ((visitedIds w).take k).flatMap (idBlock w) ++ tail ∧
      ckptWrites tail = [] := by
  obtain ⟨k, tail, hk, h1, h2, h3⟩ := mainLoop_blocks w (visitedIds w) w.progressFile
  have hpair : List.Pairwise (· < ·) (ckptWrites (mainRun w).1) := by
    show List.Pairwise (· < ·) (ckptWrites (mainLoop w (visitedIds w) w.progressFile).1)
    rw [h1]
    refine List.Pairwise.sublist (List.take_sublist k _) ?_
    unfold visitedIds
    exact List.pairwise_lt_range' _ _
  exact ⟨hpair, k, tail, h1, h2, h3⟩

/-- C4: if the content-store write fails for ID `N` (the fetch for `N`
raises a store-write exception, `ret = none`) while every earlier visited
ID concludes, then the run aborts, no event touches any ID beyond `N`, all
checkpoint writes stay below `N`, and the final checkpoint-store content is
`N - 1` (or the original content when `N` is the first visited ID) — the
checkpoint is never advanced past `N - 1`. -/
theorem c4_store_error_halts (w : World) (N : Nat)
    (hlow : load_progress w.progressFile < N) (hhigh : N ≤ MAX_ID)
    (hconc : ∀ id, load_progress w.progressFile < id → id < N → concludes w id)
    (hN : file_exists w N = false)
    (hret : (try_download (w.net N) (w.writeOk N) N).ret = none) :
    (mainRun w).2.2 = true ∧
    ((mainRun w).1.all fun e => decide (evId e ≤ N)) = true ∧
    ((ckptWrites (mainRun w).1).all fun v => decide (v < N)) = true ∧
    (mainRun w).2.1 =
      if N = load_progress w.progressFile + 1 then w.progressFile
      else some (N - 1) := by
  have h1 : MAX_ID + 1 - (load_progress w.progressFile + 1) =
      ((MAX_ID - N) + 1) + (N - (load_progress w.progressFile + 1)) := by omega
  have h2 : load_progress w.progressFile + 1 +
      (N - (load_progress w.progressFile + 1)) = N := by omega
  have hsplit : visitedIds w =
      List.range' (load_progress w.progressFile + 1)
          (N - (load_progress w.progressFile + 1)) ++
        N :: List.range' (N + 1) (MAX_ID - N) := by
    unfold visitedIds startId
    rw [h1, ← List.range'_append_1, h2, List.range'_succ]
  have hc1 : ∀ id ∈ List.range' (load_progress w.progressFile + 1)
      (N - (load_progress w.progressFile + 1)), concludes w id := by
    intro id hid
    rw [List.mem_range'_1] at hid
    exact hconc id (by omega) (by omega)
  have habort := mainLoop_abort w N (List.range' (N + 1) (MAX_ID - N)) hN hret
      (List.range' (load_progress w.progressFile + 1)
        (N - (load_progress w.progressFile + 1)))
      w.progressFile hc1
  have hmain : mainRun w =
      ((List.range' (load_progress w.progressFile + 1)
          (N - (load_progress w.progressFile + 1))).flatMap (idBlock w) ++
        Ev.check N :: (try_download (w.net N) (w.writeOk N) N).events,
       lastCk (List.range' (load_progress w.progressFile + 1)
          (N - (load_progress w.progressFile + 1))) w.progressFile, true) := by
    unfold mainRun
    rw [hsplit]
    exact habort
  refine ⟨by rw [hmain], ?_, ?_, ?_⟩
  · rw [hmain]
    simp only [List.all_eq_true, decide_eq_true_eq]
    intro e he
    rcases List.mem_append.mp he with hl | hr2
    · obtain ⟨i, hi, hei⟩ := List.mem_flatMap.mp hl
      rw [List.mem_range'_1] at hi
      rw [evId_idBlock w i e hei]
      omega
    · rcases List.mem_cons.mp hr2 with rfl | he2
      · simp [evId]
      · rw [try_download_evId (w.net N) (w.writeOk N) N e he2]
  · rw [hmain]
    have hck : ckptWrites
        (Ev.check N :: (try_download (w.net N) (w.writeOk N) N).events) = [] := by
      simp [ckptWrites, try_download_no_ckpt]
    show (ckptWrites _).all _ = true
    rw [ckptWrites_append, ckptWrites_flatMap_blocks, hck, List.append_nil]
    simp only [List.all_eq_true, decide_eq_true_eq]
    intro v hv
    rw [List.mem_range'_1] at hv
    omega
  · rw [hmain]
    by_cases hend : N = load_progress w.progressFile + 1
    · rw [if_pos hend]
      show lastCk (List.range' (load_progress w.progressFile + 1)
        (N - (load_progress w.progressFile + 1))) w.progressFile = w.progressFile
      have h0 : N - (load_progress w.progressFile + 1) = 0 := by omega
      rw [h0]
      rfl
    · rw [if_neg hend]
      show lastCk (List.range' (load_progress w.progressFile + 1)
        (N - (load_progress w.progressFile + 1))) w.progressFile = some (N - 1)
      have hn0 : ¬ (N - (load_progress w.progressFile + 1) = 0) := by omega
      rw [lastCk_range' _ _ _ hn0]
      congr 1
      omega

/-- Witness for C4: checkpoint at 9998, ID 9999 has an existing artifact,
ID 10000 downloads successfully but its artifact write fails; the run
aborts with the checkpoint store left at 9999 = N - 1. -/
theorem c4_store_error_halts_witness :
    (mainRun
      { progressFile := some 9998, existing := fun i => i == 9999,
        net := fun _ _ => Except.ok ⟨200, some ("application/epub+zip"), []⟩,
        writeOk := fun _ => false }).2.2 = true ∧
    ((mainRun
      { progressFile := some 9998, existing := fun i => i == 9999,
        net := fun _ _ => Except.ok ⟨200, some ("application/epub+zip"), []⟩,
        writeOk := fun _ => false }).1.all fun e => decide (evId e ≤ 10000)) = true ∧
    ((ckptWrites (mainRun
      { progressFile := some 9998, existing := fun i => i == 9999,
        net := fun _ _ => Except.ok ⟨200, some ("application/epub+zip"), []⟩,
        writeOk := fun _ => false }).1).all fun v => decide (v < 10000)) = true ∧
    (mainRun
      { progressFile := some 9998, existing := fun i => i == 9999,
        net := fun _ _ => Except.ok ⟨200, some ("application/epub+zip"), []⟩,
        writeOk := fun _ => false }).2.1 =
      if 10000 = load_progress (some 9998) + 1 then some 9998
      else some (10000 - 1) :=
  c4_store_error_halts
    { progressFile := some 9998, existing := fun i => i == 9999,
      net := fun _ _ => Except.ok ⟨200, some ("application/epub+zip"), []⟩,
      writeOk := fun _ => false } 10000
    (by decide) (by decide)
    (fun id hid1 hid2 => by
      have hid1a : (9998 : Nat) < id := by simpa [load_progress] using hid1
      have hid : id = 9999 := by omega
      subst hid
      exact Or.inl rfl)
    rfl rfl

/-- C5: in every run that does not abort, the IDs visited (existence-checked)
are exactly `K + 1, ..., MAX_ID` where `K` is the loaded checkpoint value
(0 when the store is absent), in strictly increasing order with no skips
and no revisits; the list is empty — the run ends immediately — when
`K ≥ MAX_ID`. -/
theorem c5_resume_ordering (w : World) (h : (mainRun w).2.2 = false) :
    checkedIds (mainRun w).1 =
      List.range' (load_progress w.progressFile + 1)
        (MAX_ID - load_progress w.progressFile) ∧
    List.Pairwise (· < ·) (checkedIds (mainRun w).1) := by
  have hc : checkedIds (mainRun w).1 = visitedIds w :=
    mainLoop_checked w (visitedIds w) w.progressFile h
  constructor
  · rw [hc]
    unfold visitedIds startId
    congr 1
    omega
  · rw [hc]
    unfold visitedIds
    exact List.pairwise_lt_range' _ _

/-- Witness for C5 at checkpoint 9995 with all artifacts present: the run
visits exactly 9996 through 10000 in order. -/
theorem c5_resume_ordering_witness :
    checkedIds (mainRun
      { progressFile := some 9995, existing := fun _ => true,
        net := fun _ _ => Except.error NetExc.timeout,
        writeOk := fun _ => true }).1 = List.range' 9996 5 ∧
    List.Pairwise (· < ·) (checkedIds (mainRun
      { progressFile := some 9995, existing := fun _ => true,
        net := fun _ _ => Except.error NetExc.timeout,
        writeOk := fun _ => true }).1) :=
  c5_resume_ordering
    { progressFile := some 9995, existing := fun _ => true,
      net := fun _ _ => Except.error NetExc.timeout,
      writeOk := fun _ => true } rfl

/-- C6: for an ID whose artifact exists in the content store, no event of
the whole run attributed to that ID is a network call, a retry delay, or a
pacing delay — the run's trace filtered to such events for that ID is
empty, whatever the checkpoint value. -/
theorem c6_skip_no_network (w : World) (id : Nat) (hx : file_exists w id = true) :
    (mainRun w).1.filter (evTouchesNetOrWaits id) = [] := by
  rw [List.filter_eq_nil_iff]
  intro e he
  rw [mainLoop_no_touch w id hx (visitedIds w) w.progressFile e he]
  exact Bool.false_ne_true

/-- Witness for C6: all artifacts exist; the run from checkpoint 9997 makes
no network call and waits no delay for ID 9999. -/
theorem c6_skip_no_network_witness :
    (mainRun
      { progressFile := some 9997, existing := fun _ => true,
        net := fun _ _ => Except.error NetExc.timeout,
        writeOk := fun _ => true }).1.filter (evTouchesNetOrWaits 9999) = [] :=
  c6_skip_no_network
    { progressFile := some 9997, existing := fun _ => true,
      net := fun _ _ => Except.error NetExc.timeout,
      writeOk := fun _ => true } 9999 rfl

/-- C9: when the loaded checkpoint value is at least `MAX_ID`, the run
produces no events at all — no existence check, no fetch, no checkpoint
write — the checkpoint-store content is unchanged and the run ends
normally at once. -/
theorem c9_past_end_noop (w : World) (h : MAX_ID ≤ load_progress w.progressFile) :
    mainRun w = ([], w.progressFile, false) := by
  unfold mainRun visitedIds startId
  have h0 : MAX_ID + 1 - (load_progress w.progressFile + 1) = 0 := by omega
  rw [h0]
  rfl

/-- Witness for C9 at checkpoint exactly `MAX_ID`. -/
theorem c9_past_end_noop_witness :
    mainRun
      { progressFile := some 10000, existing := fun _ => false,
        net := fun _ _ => Except.error NetExc.timeout,
        writeOk := fun _ => true } = ([], some 10000, false) :=
  c9_past_end_noop
    { progressFile := some 10000, existing := fun _ => false,
      net := fun _ _ => Except.error NetExc.timeout,
      writeOk := fun _ => true } (by decide)
